import Mathlib

/-!
Verification of the demographic-extraction engine of the `extracts` repository.

The development shallowly embeds the core of `src/data_processor.py` (the
processor the application in `src/app.py` instantiates) and of the legacy
`src/data_processor_old.py` (whose merge and summary functions several claims
cite).  Conventions of the embedding:

* Python strings are Lean `String`s (ASCII payloads; `str.lower` is modelled
  by mapping `Char.toLower` over the character data).
* A pandas cell is an `Option String`; a missing value (`NaN`) is `none`, and
  `str` of a missing value is the string `"nan"`, exactly what the Python code
  tests for.  The boolean `True` stored by `process_files` in the `matched`
  column is embedded as the cell `some "True"` (its `str` image).
* A pandas `DataFrame` is a `DFrame`: a column-name list plus rows of cells
  positionally aligned with the columns.
* `fuzzywuzzy.fuzz.ratio` is implemented exactly: difflib's
  `SequenceMatcher.find_longest_match` dynamic programme (no junk heuristic
  applies, since the keyword argument is far shorter than 200 characters),
  the recursive matching-blocks total, and `int(round(...))` with Python's
  round-half-to-even.  The processor's `fuzzy_algorithm` dispatch
  (`ratio` / `partial_ratio` / `token_sort_ratio` / `token_set_ratio`, with
  `ratio` as fallback for unknown names) selects one scoring function of type
  `String → String → Nat`; theorems quantifying over "every algorithm" are
  stated for an arbitrary such scoring function, and `fuzzRatioFn` below is
  the concrete `ratio` instance used on concrete inputs.
-/

/-- Model of Python `str.lower` on ASCII data (`text.lower()` in the source). -/
def lowerStr (s : String) : String := ⟨s.data.map Char.toLower⟩

/-- Character-list prefix test, used to model Python's substring operator. -/
def prefixCheck : List Char → List Char → Bool
  | [], _ => true
  | _ :: _, [] => false
  | p :: ps, c :: cs => p == c && prefixCheck ps cs

/-- Model of Python's `keyword in text` substring containment: the pattern is
a contiguous substring of the text (the empty pattern is contained in
everything, as in Python). -/
def containsSubCheck (pat : List Char) : List Char → Bool
  | [] => pat.isEmpty
  | c :: cs => prefixCheck pat (c :: cs) || containsSubCheck pat cs

/-- Python whitespace characters recognised by `str.strip()`. -/
def isPySpace (c : Char) : Bool :=
  c = ' ' || c = '\t' || c = '\n' || c = '\r' || c = '\x0b' || c = '\x0c'

/-- Model of Python `str.strip()`. -/
def stripStr (s : String) : String :=
  ⟨((s.data.dropWhile isPySpace).reverse.dropWhile isPySpace).reverse⟩

/-- Word characters of the regex `\w` on ASCII data (letters, digits,
underscore), used by `fuzzywuzzy.utils.full_process`. -/
def isWordChar (c : Char) : Bool := c.isAlphanum || c = '_'

/-- Model of `fuzzywuzzy.utils.full_process`: replace non-word characters by
spaces, lower-case, strip (ASCII inputs; `force_ascii` is the identity on
them). -/
def fullProcess (s : String) : String :=
  stripStr ⟨(s.data.map (fun c => if isWordChar c then c else ' ')).map Char.toLower⟩

/-- Lookup in the `j2len` dictionary of difflib's `find_longest_match`
(`j2len.get(j, 0)`). -/
def lookupJ2 (l : List (Nat × Nat)) (j : Nat) : Nat :=
  match l.find? (fun p => p.1 == j) with
  | some p => p.2
  | none => 0

/-- Inner loop of difflib's `find_longest_match`: for one row index `i`, walk
the positions `j` of `a[i]` inside the `b`-window in ascending order, build
the new run-length dictionary and update the best block (strict comparison,
so the first maximal block found wins, as in difflib). -/
def flmRow (i : Nat) (j2len : List (Nat × Nat)) :
    List Nat → List (Nat × Nat) → Nat × Nat × Nat → List (Nat × Nat) × (Nat × Nat × Nat)
  | [], newJ2, best => (newJ2, best)
  | j :: js, newJ2, best =>
    let k := (if j = 0 then 0 else lookupJ2 j2len (j - 1)) + 1
    let best' := if best.2.2 < k then (i + 1 - k, j + 1 - k, k) else best
    flmRow i j2len js ((j, k) :: newJ2) best'

/-- Outer loop of difflib's `find_longest_match` over the `a`-window. -/
def flmLoop (a b : List Char) (blo bhi : Nat) :
    List Nat → List (Nat × Nat) → Nat × Nat × Nat → Nat × Nat × Nat
  | [], _, best => best
  | i :: is, j2len, best =>
    let c := (a.get? i).getD ' '
    let js := (List.range b.length).filter
      (fun j => decide (blo ≤ j) && decide (j < bhi) && ((b.get? j).getD ' ' == c))
    let p := flmRow i j2len js [] best
    flmLoop a b blo bhi is p.1 p.2

/-- difflib `SequenceMatcher.find_longest_match` on the windows
`a[alo:ahi]`, `b[blo:bhi]`; returns `(i, j, size)`.  The junk-extension
phases of difflib are omitted because they are no-ops when no character of
`b` is junk, which is the case for every keyword (autojunk only engages for
sequences of at least 200 elements). -/
def findLongestMatch (a b : List Char) (alo ahi blo bhi : Nat) : Nat × Nat × Nat :=
  flmLoop a b blo bhi (List.range' alo (ahi - alo)) [] (alo, blo, 0)

/-- Total size of difflib's matching blocks (the sum that
`SequenceMatcher.ratio` divides by the combined length).  The fuel is an
upper bound on the recursion depth of `get_matching_blocks`; the caller
passes `a.length + 1`, which suffices since every recursive call strictly
shrinks the `a`-window. -/
def matchTotal (a b : List Char) : Nat → Nat → Nat → Nat → Nat → Nat
  | 0, _, _, _, _ => 0
  | fuel + 1, alo, ahi, blo, bhi =>
    let t := findLongestMatch a b alo ahi blo bhi
    if t.2.2 = 0 then 0
    else matchTotal a b fuel alo t.1 blo t.2.1 + t.2.2 +
         matchTotal a b fuel (t.1 + t.2.2) ahi (t.2.1 + t.2.2) bhi

/-- Sum of matching-block sizes over the whole strings. -/
def seqMatches (a b : List Char) : Nat := matchTotal a b (a.length + 1) 0 a.length 0 b.length

/-- Round `num / den` to the nearest integer, ties to even — Python 3
`round`, used by `fuzzywuzzy.utils.intr` on the exact rational value. -/
def roundHalfEven (num den : Nat) : Nat :=
  let q := num / den
  let r := num % den
  if 2 * r < den then q
  else if den < 2 * r then q + 1
  else if q % 2 = 0 then q else q + 1

/-- Model of `fuzzywuzzy.fuzz.ratio`: `0` when either string is empty (the
`check_empty_string` decorator), otherwise `int(round(100 * 2M/T))` where `M`
is the matching-blocks total and `T` the combined length. -/
def fuzzRatioFn (s1 s2 : String) : Nat :=
  if s1.data.length = 0 || s2.data.length = 0 then 0
  else roundHalfEven (200 * seqMatches s1.data s2.data) (s1.data.length + s2.data.length)

/-- Model of `DataProcessor._fuzzy_match_demographic` of
`src/data_processor.py` (the processor `app.py` uses): lower-case the text,
and report a match as soon as some keyword's fuzzy score reaches the
threshold.  There is no substring shortcut in this version.  `score` is the
scoring function selected by the `fuzzy_algorithm` dispatch. -/
def fuzzyMatchDemographicNew (score : String → String → Nat) (threshold : Nat)
    (text : String) (keywords : List String) : Bool :=
  keywords.any (fun keyword => decide (threshold ≤ score (lowerStr text) (lowerStr keyword)))

/-- Model of `DataProcessor._fuzzy_match_demographic` of
`src/data_processor_old.py`: the per-keyword loop returns a match when the
fuzzy score reaches the threshold or when the lowered keyword is a literal
substring of the lowered text; afterwards `process.extractOne` (with the
`full_process` processor, since plain scorers are not in fuzzywuzzy's
self-processing list) compares the best processed score against the
threshold, and `None` (empty keyword list) yields no match. -/
def fuzzyMatchDemographicOld (score : String → String → Nat) (threshold : Nat)
    (text : String) (keywords : List String) : Bool :=
  let textLower := lowerStr text
  (keywords.any (fun keyword =>
      decide (threshold ≤ score textLower (lowerStr keyword)) ||
      containsSubCheck (lowerStr keyword).data textLower.data))
  ||
  (match keywords with
   | [] => false
   | _ :: _ =>
     decide (threshold ≤
       ((keywords.map (fun k => score (fullProcess textLower) (fullProcess k))).foldl Nat.max 0)))

/-- The `demographic_data_types` list of `src/data_processor.py`. -/
def demographicDataTypesNew : List String :=
  [ "embossed name", "embossed company name", "primary name", "secondary name",
    "legal name", "dba name", "double byte name",
    "gender", "dob", "date of birth", "birth date",
    "gov ids", "government ids", "government identification", "social security",
    "ssn", "tax id", "identification number",
    "home address", "business address", "alternate address", "temporary address",
    "other address", "additional addresses", "mailing address", "billing address",
    "shipping address", "residential address", "work address",
    "home phone", "business phone", "mobile phone", "cell phone", "work phone",
    "phone number", "telephone", "fax", "fax number",
    "home email", "business email", "work email", "personal email",
    "email address", "email", "e-mail",
    "member since date", "membership date", "registration date", "enrollment date",
    "customer since", "account opened" ]

/-- The `demographic_data_types` list of `src/data_processor_old.py`. -/
def demographicDataTypesOld : List String :=
  [ "embossed name", "embossed company name", "primary name", "secondary name",
    "legal name", "dba name", "double byte name",
    "gender", "dob", "date of birth", "birth date",
    "gov ids", "government ids", "government identification", "social security",
    "ssn", "tax id", "identification number",
    "home address", "business address", "alternate address", "temporary address",
    "other address", "additional addresses", "mailing address", "billing address",
    "shipping address", "residential address", "work address",
    "home phone", "alternate home phone", "business phone", "alternate business phone",
    "mobile phone", "alternate mobile phone", "attorney phone", "fax", "ani phone",
    "other phone", "additional phone", "cell phone", "work phone", "office phone",
    "contact number", "telephone", "phone number",
    "servicing email", "estatement email", "business email", "other email address",
    "additional email", "contact email", "work email", "personal email",
    "primary email", "secondary email",
    "preference language cd", "language preference", "preferred language",
    "member since date", "membership date", "registration date", "enrollment date",
    "customer since", "account opened" ]

/-- A pandas `DataFrame`: column names plus rows of cells positionally
aligned with the columns (`none` is a missing value / `NaN`). -/
structure DFrame where
  cols : List String
  rows : List (List (Option String))
deriving DecidableEq

/-- Python `str` applied to a cell: a missing value prints as `"nan"`. -/
def strCell : Option String → String
  | none => "nan"
  | some s => s

/-- The `str(row.get(col, ''))` access of the source: the cell of the named
column, stringified; the empty string when the column is absent. -/
def getCellStr (cols : List String) (row : List (Option String)) (c : String) : String :=
  match cols.findIdx? (fun x => x == c) with
  | some i => strCell ((row.get? i).getD none)
  | none => ""

/-- The guard `if cell_value and cell_value.lower() != 'nan'` of the
source: the stringified cell is non-empty and is not a missing value. -/
def cellPasses (v : String) : Bool := !(v == "") && !(lowerStr v == "nan")

/-- One row of `_identify_demographic_rows_by_description` in
`src/data_processor.py`: the `attr_description` cell passes the guard and
fuzzy-matches the keyword list. -/
def descRowMatches (score : String → String → Nat) (threshold : Nat) (keywords : List String)
    (cols : List String) (row : List (Option String)) : Bool :=
  let v := getCellStr cols row "attr_description"
  cellPasses v && fuzzyMatchDemographicNew score threshold v keywords

/-- One row of the all-columns fallback loop of `_extract_demographic_data`
in `src/data_processor.py`: some column's cell passes the guard and
fuzzy-matches. -/
def rowContentMatches (score : String → String → Nat) (threshold : Nat) (keywords : List String)
    (cols : List String) (row : List (Option String)) : Bool :=
  cols.any (fun c =>
    let v := getCellStr cols row c
    cellPasses v && fuzzyMatchDemographicNew score threshold v keywords)

/-- The fallback of `_extract_demographic_data` in `src/data_processor.py`:
keep the rows whose content matches; if none does, return the empty
`pd.DataFrame()` (no columns, no rows). -/
def contentScan (score : String → String → Nat) (threshold : Nat) (keywords : List String)
    (df : DFrame) : DFrame :=
  if (df.rows.filter (rowContentMatches score threshold keywords df.cols)).isEmpty then
    DFrame.mk [] []
  else
    DFrame.mk df.cols (df.rows.filter (rowContentMatches score threshold keywords df.cols))

/-- Model of `DataProcessor._extract_demographic_data` of
`src/data_processor.py`: if an `attr_description` column exists and some row
matches by description, keep exactly those rows (all columns preserved);
otherwise fall back to scanning every column's cell contents.  The keyword
list is `demographic_data_types + demographic_keywords`, with `userKws` the
user-supplied keywords. -/
def extractDemographicData (score : String → String → Nat) (threshold : Nat)
    (userKws : List String) (df : DFrame) : DFrame :=
  let allKws := demographicDataTypesNew ++ userKws
  if "attr_description" ∈ df.cols then
    if (df.rows.filter (descRowMatches score threshold allKws df.cols)).isEmpty then
      contentScan score threshold allKws df
    else
      DFrame.mk df.cols (df.rows.filter (descRowMatches score threshold allKws df.cols))
  else contentScan score threshold allKws df

/-- pandas `DataFrame.empty`: no rows or no columns. -/
def dfEmpty (df : DFrame) : Bool := df.rows.isEmpty || df.cols.isEmpty

/-- The fields produced by `get_processing_summary` of
`src/data_processor.py` that the claims touch (the algorithm name, a plain
configuration string, is left out of the embedding). -/
structure SummaryStats where
  totalRecords : Nat
  originalColumns : List String
  originalColumnCount : Nat
  matchedRecords : Nat
  unmatchedRecords : Nat
  processingThreshold : Nat
deriving DecidableEq

/-- The `merged_df['matched'].sum()` expression of `get_processing_summary`:
count of `True` cells of the `matched` column when present, else the row
count. -/
def matchedColumnCount (merged : DFrame) : Nat :=
  if "matched" ∈ merged.cols then
    (merged.rows.filter (fun r => getCellStr merged.cols r "matched" == "True")).length
  else merged.rows.length

/-- Model of `DataProcessor.get_processing_summary` of
`src/data_processor.py`. -/
def getProcessingSummaryNew (threshold : Nat) (merged : DFrame) : SummaryStats :=
  let originalColumns := merged.cols.filter (fun c => !(c == "table_name" || c == "matched"))
  { totalRecords := merged.rows.length
    originalColumns := originalColumns
    originalColumnCount := originalColumns.length
    matchedRecords := matchedColumnCount merged
    unmatchedRecords := merged.rows.length - matchedColumnCount merged
    processingThreshold := threshold }

/-- The statistics dictionary `process_files` returns: the summary plus the
extraction counters it adds.  `extractionPercentage100` is the
`extraction_percentage` in hundredths (`66.67` is `6667`), computed with
round-half-to-even like Python's `round(x, 2)`. -/
structure ProcessingStats where
  summary : SummaryStats
  originalColumnsTotal : Nat
  originalTableTotal : Nat
  demographicRowsExtracted : Nat
  nonDemographicRows : Nat
  extractionPercentage100 : Nat
deriving DecidableEq

/-- The discriminated dictionary `process_files` returns:
`{'success': True, 'data': ..., 'stats': ...}` or
`{'success': False, 'error': ...}`. -/
inductive ProcessResult where
  | success (data : DFrame) (stats : ProcessingStats)
  | failure (error : String)
deriving DecidableEq

/-- Model of `DataProcessor.process_files` of `src/data_processor.py` on
already-parsed tables (file reading is the I/O collaborator's concern): an
optional table `DFrame` contributes only its row count, extraction runs on
the columns `DFrame`, an empty extraction is the domain failure, and
otherwise the constant columns `table_name = 'N/A'`, `matched = True` are
appended and the statistics assembled.  The function is total: every
outcome is one of the two `ProcessResult` values. -/
def processFiles (score : String → String → Nat) (threshold : Nat) (userKws : List String)
    (tableDf : Option DFrame) (columnsDf : DFrame) : ProcessResult :=
  let originalColumnsTotal := columnsDf.rows.length
  let originalTableTotal := match tableDf with
    | some t => t.rows.length
    | none => 0
  let demographicData := extractDemographicData score threshold userKws columnsDf
  if dfEmpty demographicData then
    ProcessResult.failure "No demographic data found in columns file"
  else
    let mergedData : DFrame :=
      DFrame.mk (demographicData.cols ++ ["table_name", "matched"])
        (demographicData.rows.map (fun r => r ++ [some "N/A", some "True"]))
    let extracted := demographicData.rows.length
    ProcessResult.success mergedData
      { summary := getProcessingSummaryNew threshold mergedData
        originalColumnsTotal := originalColumnsTotal
        originalTableTotal := originalTableTotal
        demographicRowsExtracted := extracted
        nonDemographicRows := originalColumnsTotal - extracted
        extractionPercentage100 :=
          if 0 < originalColumnsTotal then
            roundHalfEven (10000 * extracted) originalColumnsTotal
          else 0 }

/-- Projection: the `extraction_percentage` of a successful result. -/
def resultExtractionPct : ProcessResult → Option Nat
  | ProcessResult.success _ s => some s.extractionPercentage100
  | ProcessResult.failure _ => none

/-- Projection: the data rows of a successful result. -/
def resultDataRows : ProcessResult → Option (List (List (Option String)))
  | ProcessResult.success d _ => some d.rows
  | ProcessResult.failure _ => none

/-- A row of the reference (table) file, restricted to the two columns
`_merge_with_table_names` of `src/data_processor_old.py` selects: the join
key (`storage_id`) and the table name.  Other reference columns do not
participate in the merge. -/
structure RefRow where
  sid : Option String
  name : Option String
deriving DecidableEq

/-- A row of the demographic (columns) table entering the merge: its join
key plus the remaining cells, in column order. -/
structure DemoRow where
  sid : Option String
  rest : List (Option String)
deriving DecidableEq

/-- An output row of `_merge_with_table_names`, in the column order the
source produces: `table_name`, `matched`, the key, then the remaining
original columns. -/
structure MergedRow where
  table_name : String
  matched : Bool
  sid : Option String
  rest : List (Option String)
deriving DecidableEq

/-- pandas `drop_duplicates(subset=key)` with the default `keep='first'`:
keep the first row bearing each key value (pandas treats duplicate `NaN`
keys as duplicates of each other, which `Option` equality reproduces). -/
def dropDupFirstAux (seen : List (Option String)) : List RefRow → List RefRow
  | [] => []
  | r :: rest =>
    if r.sid ∈ seen then dropDupFirstAux seen rest
    else r :: dropDupFirstAux (r.sid :: seen) rest

/-- The deduplicated key-to-name mapping `_merge_with_table_names` builds. -/
def dropDuplicatesFirst (l : List RefRow) : List RefRow := dropDupFirstAux [] l

/-- Model of `DataProcessor._merge_with_table_names` of
`src/data_processor_old.py`: left-merge the demographic rows with the
deduplicated mapping on the key (pandas matches `NaN` keys to `NaN` keys),
set `matched` from `table_name.notna()`, fill missing names with
`'No_Match_Found'`, and reorder the columns. -/
def mergeWithTableNames (demo : List DemoRow) (ref : List RefRow) : List MergedRow :=
  let mapping := dropDuplicatesFirst ref
  demo.map (fun d =>
    match mapping.find? (fun r => decide (r.sid = d.sid)) with
    | some r =>
      { table_name := r.name.getD "No_Match_Found"
        matched := r.name.isSome
        sid := d.sid
        rest := d.rest }
    | none =>
      { table_name := "No_Match_Found"
        matched := false
        sid := d.sid
        rest := d.rest })

/-- The `merged_df['table_name'].nunique()` statistic of
`get_processing_summary` in `src/data_processor_old.py` (the same
expression `app.py` displays as "Unique Tables"): the number of distinct
values of the `table_name` column, which is never null after the merge. -/
def uniqueTables (out : List MergedRow) : Nat :=
  (out.map (fun m => m.table_name)).dedup.length

/-- The two placeholder table names of the pipeline. -/
def isPlaceholderName (n : String) : Bool := n == "N/A" || n == "No_Match_Found"

/-- Modelled from the spec: "`unique_tables` = count of distinct
non-placeholder values in `table_name`" — the comparison definition for the
refinement claim C7. -/
def uniqueTablesSpec (out : List MergedRow) : Nat :=
  ((out.map (fun m => m.table_name)).filter (fun n => !isPlaceholderName n)).dedup.length

/-- Scenario A of the spec: the columns table with the three
`attr_description` values. -/
def scenarioDf : DFrame :=
  DFrame.mk ["attr_description"]
    [[some "Customer Gender"], [some "Widget Color"], [some "Home Phone Number"]]

/-- A columns table whose `attr_description` column is entirely null while
another column holds demographic content (claim C8). -/
def c8Df : DFrame := DFrame.mk ["attr_description", "attr_name"] [[none, some "gender"]]

/-- Concrete demographic table for the C2 witness. -/
def c2DemoEx : List DemoRow := [DemoRow.mk (some "S1") [], DemoRow.mk (some "S9") []]

/-- Concrete reference table for the C2 witness. -/
def c2RefEx : List RefRow := [RefRow.mk (some "S1") (some "Customers")]

/-- Concrete demographic table for the C6 witness. -/
def c6DemoEx : List DemoRow := [DemoRow.mk (some "S1") []]

/-- Concrete reference table with a duplicated key for the C6 witness. -/
def c6RefEx : List RefRow :=
  [RefRow.mk (some "S1") (some "Alpha"), RefRow.mk (some "S1") (some "Beta")]

/-- Concrete demographic table for the C10 witness. -/
def c10DemoEx : List DemoRow := [DemoRow.mk (some "S2") []]

/-- Concrete reference table whose first row for the key has a null name
(claim C10). -/
def c10RefEx : List RefRow :=
  [RefRow.mk (some "S2") none, RefRow.mk (some "S2") (some "Gamma")]

/-- Concrete merge output for the C7 counterexample: one matched row and one
unmatched row. -/
def c7OutEx : List MergedRow :=
  mergeWithTableNames [DemoRow.mk (some "S1") [], DemoRow.mk (some "S2") []]
    [RefRow.mk (some "S1") (some "Customers")]

/-- Membership in the deduplicated reference mapping implies membership in
the original reference table. -/
theorem mem_dropDupFirstAux {r : RefRow} :
    ∀ (seen : List (Option String)) (l : List RefRow), r ∈ dropDupFirstAux seen l → r ∈ l := by
  intro seen l
  induction l generalizing seen with
  | nil => simp [dropDupFirstAux]
  | cons a rest ih =>
    intro hmem
    simp only [dropDupFirstAux] at hmem
    by_cases h : a.sid ∈ seen
    · rw [if_pos h] at hmem
      exact List.mem_cons_of_mem a (ih seen hmem)
    · rw [if_neg h] at hmem
      rcases List.mem_cons.mp hmem with h1 | h2
      · exact h1 ▸ List.mem_cons_self a rest
      · exact List.mem_cons_of_mem a (ih _ h2)

/-- Looking a key up in the deduplicated mapping finds exactly the first
reference row bearing that key. -/
theorem find?_dropDupFirstAux (v : Option String) :
    ∀ (l : List RefRow) (seen : List (Option String)), v ∉ seen →
      (dropDupFirstAux seen l).find? (fun r => decide (r.sid = v)) =
        l.find? (fun r => decide (r.sid = v)) := by
  intro l
  induction l with
  | nil => intro seen _; rfl
  | cons a rest ih =>
    intro seen hv
    simp only [dropDupFirstAux]
    by_cases h : a.sid ∈ seen
    · rw [if_pos h]
      have hne : ¬(a.sid = v) := fun he => hv (he ▸ h)
      rw [List.find?_cons_of_neg _ (by simpa using hne)]
      exact ih seen hv
    · rw [if_neg h]
      by_cases hav : a.sid = v
      · rw [List.find?_cons_of_pos _ (by simpa using hav),
          List.find?_cons_of_pos _ (by simpa using hav)]
      · rw [List.find?_cons_of_neg _ (by simpa using hav),
          List.find?_cons_of_neg _ (by simpa using hav)]
        refine ih (a.sid :: seen) ?_
        intro hmem
        rcases List.mem_cons.mp hmem with h1 | h2
        · exact hav h1.symm
        · exact hv h2

/-- Claim C2 — Left-join completeness: for every demographic table and
reference table, the merge returns exactly one output row per demographic
row, and every output row either carries a table name resolved from some
reference row with `matched = true`, or carries the placeholder
`No_Match_Found` with `matched = false`. -/
theorem c2_left_join_complete (demo : List DemoRow) (ref : List RefRow) :
    (mergeWithTableNames demo ref).length = demo.length ∧
      ∀ m ∈ mergeWithTableNames demo ref,
        (m.matched = true ∧ ∃ r ∈ ref, r.sid = m.sid ∧ r.name = some m.table_name) ∨
        (m.matched = false ∧ m.table_name = "No_Match_Found") := by
  constructor
  · simp [mergeWithTableNames]
  · intro m hm
    simp only [mergeWithTableNames, List.mem_map] at hm
    obtain ⟨d, hd, hmd⟩ := hm
    subst hmd
    cases hfind : (dropDuplicatesFirst ref).find? (fun r => decide (r.sid = d.sid)) with
    | none => right; simp [hfind]
    | some r =>
      have hp := List.find?_some hfind
      have hrsid : r.sid = d.sid := of_decide_eq_true hp
      have hrmem : r ∈ ref :=
        mem_dropDupFirstAux [] ref (List.mem_of_find?_eq_some hfind)
      cases hname : r.name with
      | none => right; simp [hfind, hname]
      | some n =>
        left
        refine ⟨by simp [hfind, hname], r, hrmem, ?_, ?_⟩
        · simp [hfind, hrsid]
        · simp [hfind, hname]

/-- Claim C2 witness at a concrete pair of tables. -/
theorem c2_left_join_complete_witness :
    (mergeWithTableNames c2DemoEx c2RefEx).length = c2DemoEx.length ∧
      (((MergedRow.mk "Customers" true (some "S1") []).matched = true ∧
        ∃ r ∈ c2RefEx, r.sid = (MergedRow.mk "Customers" true (some "S1") []).sid ∧
          r.name = some (MergedRow.mk "Customers" true (some "S1") []).table_name) ∨
      ((MergedRow.mk "Customers" true (some "S1") []).matched = false ∧
        (MergedRow.mk "Customers" true (some "S1") []).table_name = "No_Match_Found")) :=
  ⟨(c2_left_join_complete c2DemoEx c2RefEx).1,
   (c2_left_join_complete c2DemoEx c2RefEx).2 (MergedRow.mk "Customers" true (some "S1") [])
     (by decide)⟩

/-- Claim C6 — First-occurrence-wins deduplication: when the first reference
row bearing key `k` has table name `s`, every merged row whose key is `k`
resolves to `s` (later occurrences of `k` in the reference table are
ignored). -/
theorem c6_first_occurrence_wins (demo : List DemoRow) (ref : List RefRow) (k : String)
    (r₀ : RefRow) (s : String)
    (hfind : ref.find? (fun r => decide (r.sid = some k)) = some r₀)
    (hname : r₀.name = some s) :
    ∀ m ∈ mergeWithTableNames demo ref, m.sid = some k →
      m.table_name = s ∧ m.matched = true := by
  intro m hm hsid
  simp only [mergeWithTableNames, List.mem_map] at hm
  obtain ⟨d, hd, hmd⟩ := hm
  subst hmd
  have hdsid : d.sid = some k := by
    cases hfind2 : (dropDuplicatesFirst ref).find? (fun r => decide (r.sid = d.sid)) with
    | none => simpa [hfind2] using hsid
    | some r => simpa [hfind2] using hsid
  have hmap : (dropDuplicatesFirst ref).find? (fun r => decide (r.sid = d.sid)) = some r₀ := by
    rw [hdsid, dropDuplicatesFirst]
    exact (find?_dropDupFirstAux (some k) ref [] (by simp)).trans hfind
  simp [hmap, hname]

/-- Claim C6 witness: with the key `S1` occurring twice in the reference
table, the merge resolves to the first occurrence's name `Alpha`. -/
theorem c6_first_occurrence_wins_witness :
    (MergedRow.mk "Alpha" true (some "S1") []).table_name = "Alpha" ∧
      (MergedRow.mk "Alpha" true (some "S1") []).matched = true :=
  c6_first_occurrence_wins c6DemoEx c6RefEx "S1" (RefRow.mk (some "S1") (some "Alpha")) "Alpha"
    (by decide) rfl (MergedRow.mk "Alpha" true (some "S1") []) (by decide) rfl

/-- Claim C10 — Matched flag follows the resolved name, not key presence:
when the first reference row bearing key `k` has a null name, every merged
row whose key is `k` gets `matched = false` and the placeholder
`No_Match_Found`, even though the key was found. -/
theorem c10_null_name_unmatched (demo : List DemoRow) (ref : List RefRow) (k : String)
    (r₀ : RefRow)
    (hfind : ref.find? (fun r => decide (r.sid = some k)) = some r₀)
    (hname : r₀.name = none) :
    ∀ m ∈ mergeWithTableNames demo ref, m.sid = some k →
      m.matched = false ∧ m.table_name = "No_Match_Found" := by
  intro m hm hsid
  simp only [mergeWithTableNames, List.mem_map] at hm
  obtain ⟨d, hd, hmd⟩ := hm
  subst hmd
  have hdsid : d.sid = some k := by
    cases hfind2 : (dropDuplicatesFirst ref).find? (fun r => decide (r.sid = d.sid)) with
    | none => simpa [hfind2] using hsid
    | some r => simpa [hfind2] using hsid
  have hmap : (dropDuplicatesFirst ref).find? (fun r => decide (r.sid = d.sid)) = some r₀ := by
    rw [hdsid, dropDuplicatesFirst]
    exact (find?_dropDupFirstAux (some k) ref [] (by simp)).trans hfind
  simp [hmap, hname]

/-- Claim C10 witness: key `S2` is present in the reference table but its
first row's name is null, so the merged row is unmatched. -/
theorem c10_null_name_unmatched_witness :
    (MergedRow.mk "No_Match_Found" false (some "S2") []).matched = false ∧
      (MergedRow.mk "No_Match_Found" false (some "S2") []).table_name = "No_Match_Found" :=
  c10_null_name_unmatched c10DemoEx c10RefEx "S2" (RefRow.mk (some "S2") none)
    (by decide) rfl (MergedRow.mk "No_Match_Found" false (some "S2") []) (by decide) rfl

/-- Distinct-value counting splits along any boolean predicate. -/
theorem dedup_length_split (l : List String) (p : String → Bool) :
    l.dedup.length = (l.filter p).dedup.length + (l.filter (fun a => !p a)).dedup.length := by
  rw [← List.card_toFinset, ← List.card_toFinset, ← List.card_toFinset,
    List.toFinset_filter, List.toFinset_filter]
  have hfe : Finset.filter (fun x => (!p x) = true) l.toFinset
      = Finset.filter (fun x => ¬(p x = true)) l.toFinset := by
    apply Finset.filter_congr
    intro x _
    simp
  rw [hfe]
  exact (Finset.filter_card_add_filter_neg_card_eq_card (fun x => p x = true)).symm

/-- Claim C7 counterexample: a merge output with one resolved name and one
unmatched row has `nunique = 2`, while the spec's count of distinct
non-placeholder names is `1` — the code counts the placeholder. -/
theorem c7_unique_tables_counterexample :
    uniqueTables c7OutEx = 2 ∧ uniqueTablesSpec c7OutEx = 1 := by
  constructor
  · decide
  · decide

/-- Claim C7 as amended: `unique_tables` equals the spec's count of distinct
non-placeholder table names plus the number of distinct placeholder values
(`N/A`, `No_Match_Found`) actually present in the output. -/
theorem c7_unique_tables_amended (out : List MergedRow) :
    uniqueTables out = uniqueTablesSpec out +
      ((out.map (fun m => m.table_name)).filter (fun n => isPlaceholderName n)).dedup.length := by
  have h := dedup_length_split (out.map (fun m => m.table_name))
    (fun n => !isPlaceholderName n)
  simp only [Bool.not_not] at h
  simpa [uniqueTables, uniqueTablesSpec] using h

/-- Filtering twice with the same predicate filters once. -/
theorem filter_self_idem {α : Type} (p : α → Bool) (l : List α) :
    (l.filter p).filter p = l.filter p := by
  rw [List.filter_filter]
  simp

/-- If nothing in a list satisfies `p`, nothing in any of its filterings
satisfies `p`. -/
theorem filter_filter_nil {α : Type} (p q : α → Bool) (l : List α)
    (h : l.filter p = []) : (l.filter q).filter p = [] := by
  rw [List.filter_filter]
  rw [List.filter_eq_nil_iff] at h ⊢
  intro a ha
  simp [h a ha]

/-- Claim C3 — Idempotence of extraction: re-extracting the extracted subset
returns it unchanged, for every scoring function (hence every fuzzy
algorithm), threshold, and user keyword list. -/
theorem c3_extract_idempotent (score : String → String → Nat) (th : Nat)
    (userKws : List String) (df : DFrame) :
    extractDemographicData score th userKws (extractDemographicData score th userKws df) =
      extractDemographicData score th userKws df := by
  by_cases hdesc : "attr_description" ∈ df.cols
  · by_cases h1 : (df.rows.filter
        (descRowMatches score th (demographicDataTypesNew ++ userKws) df.cols)).isEmpty = true
    · have hPnil : df.rows.filter
          (descRowMatches score th (demographicDataTypesNew ++ userKws) df.cols) = [] :=
        List.isEmpty_iff.mp h1
      by_cases h2 : (df.rows.filter
          (rowContentMatches score th (demographicDataTypesNew ++ userKws) df.cols)).isEmpty = true
      · have hdf : extractDemographicData score th userKws df = DFrame.mk [] [] := by
          simp [extractDemographicData, contentScan, hdesc, h1, h2]
        rw [hdf]
        simp [extractDemographicData, contentScan]
      · have h2' : (df.rows.filter
            (rowContentMatches score th (demographicDataTypesNew ++ userKws) df.cols)).isEmpty
            = false := Bool.eq_false_iff.mpr h2
        have hdf : extractDemographicData score th userKws df = DFrame.mk df.cols
            (df.rows.filter
              (rowContentMatches score th (demographicDataTypesNew ++ userKws) df.cols)) := by
          simp [extractDemographicData, contentScan, hdesc, h1, h2']
        rw [hdf]
        have hP2 : ((df.rows.filter
            (rowContentMatches score th (demographicDataTypesNew ++ userKws) df.cols)).filter
              (descRowMatches score th (demographicDataTypesNew ++ userKws) df.cols)) = [] :=
          filter_filter_nil _ _ _ hPnil
        have hQ2 : ((df.rows.filter
            (rowContentMatches score th (demographicDataTypesNew ++ userKws) df.cols)).filter
              (rowContentMatches score th (demographicDataTypesNew ++ userKws) df.cols))
            = df.rows.filter
                (rowContentMatches score th (demographicDataTypesNew ++ userKws) df.cols) :=
          filter_self_idem _ _
        simp [extractDemographicData, contentScan, hdesc, hP2, hQ2, h2']
    · have h1' : (df.rows.filter
          (descRowMatches score th (demographicDataTypesNew ++ userKws) df.cols)).isEmpty
          = false := Bool.eq_false_iff.mpr h1
      have hdf : extractDemographicData score th userKws df = DFrame.mk df.cols
          (df.rows.filter
            (descRowMatches score th (demographicDataTypesNew ++ userKws) df.cols)) := by
        simp [extractDemographicData, hdesc, h1']
      rw [hdf]
      have hP2 : ((df.rows.filter
          (descRowMatches score th (demographicDataTypesNew ++ userKws) df.cols)).filter
            (descRowMatches score th (demographicDataTypesNew ++ userKws) df.cols))
          = df.rows.filter
              (descRowMatches score th (demographicDataTypesNew ++ userKws) df.cols) :=
        filter_self_idem _ _
      simp [extractDemographicData, hdesc, hP2, h1']
  · by_cases h2 : (df.rows.filter
        (rowContentMatches score th (demographicDataTypesNew ++ userKws) df.cols)).isEmpty = true
    · have hdf : extractDemographicData score th userKws df = DFrame.mk [] [] := by
        simp [extractDemographicData, contentScan, hdesc, h2]
      rw [hdf]
      simp [extractDemographicData, contentScan]
    · have h2' : (df.rows.filter
          (rowContentMatches score th (demographicDataTypesNew ++ userKws) df.cols)).isEmpty
          = false := Bool.eq_false_iff.mpr h2
      have hdf : extractDemographicData score th userKws df = DFrame.mk df.cols
          (df.rows.filter
            (rowContentMatches score th (demographicDataTypesNew ++ userKws) df.cols)) := by
        simp [extractDemographicData, contentScan, hdesc, h2']
      rw [hdf]
      by_cases hdesc2 : "attr_description" ∈ df.cols
      · exact absurd hdesc2 hdesc
      · have hQ2 : ((df.rows.filter
            (rowContentMatches score th (demographicDataTypesNew ++ userKws) df.cols)).filter
              (rowContentMatches score th (demographicDataTypesNew ++ userKws) df.cols))
            = df.rows.filter
                (rowContentMatches score th (demographicDataTypesNew ++ userKws) df.cols) :=
          filter_self_idem _ _
        simp [extractDemographicData, contentScan, hdesc, hQ2, h2']

/-- Claim C4 — Threshold monotonicity: for a fixed scoring function (hence a
fixed fuzzy algorithm), text and keyword list, a match at threshold `th`
is a match at every lower threshold, for both the current and the legacy
classifier. -/
theorem c4_threshold_monotone (score : String → String → Nat) (th th' : Nat)
    (text : String) (kws : List String) (hle : th' ≤ th) :
    (fuzzyMatchDemographicNew score th text kws = true →
      fuzzyMatchDemographicNew score th' text kws = true) ∧
    (fuzzyMatchDemographicOld score th text kws = true →
      fuzzyMatchDemographicOld score th' text kws = true) := by
  constructor
  · intro h
    rw [fuzzyMatchDemographicNew, List.any_eq_true] at h ⊢
    obtain ⟨k, hk, hs⟩ := h
    exact ⟨k, hk, decide_eq_true (le_trans hle (of_decide_eq_true hs))⟩
  · intro h
    cases kws with
    | nil => simp [fuzzyMatchDemographicOld] at h
    | cons a l =>
      simp only [fuzzyMatchDemographicOld, Bool.or_eq_true, List.any_eq_true,
        decide_eq_true_eq] at h ⊢
      rcases h with ⟨k, hk, hs⟩ | h
      · rcases hs with h1 | h2
        · exact Or.inl ⟨k, hk, Or.inl (le_trans hle h1)⟩
        · exact Or.inl ⟨k, hk, Or.inr h2⟩
      · exact Or.inr (le_trans hle h)

/-- Claim C4 witness: an exact match at threshold 100 stays a match at 50. -/
theorem c4_threshold_monotone_witness :
    fuzzyMatchDemographicNew fuzzRatioFn 50 "gender" ["gender"] = true :=
  (c4_threshold_monotone fuzzRatioFn 100 50 "gender" ["gender"] (by decide)).1 (by decide)

/-- The ratio of an empty first string is zero (`check_empty_string`). -/
theorem fuzzRatioFn_nil (s : String) : fuzzRatioFn (String.mk []) s = 0 := rfl

/-- Folding `max` over a list of zeros from zero gives zero. -/
theorem foldl_max_zero : ∀ (l : List Nat), (∀ x ∈ l, x = 0) → l.foldl Nat.max 0 = 0
  | [], _ => rfl
  | a :: t, h => by
    have ha : a = 0 := h a (List.mem_cons_self a t)
    have ht : ∀ x ∈ t, x = 0 := fun x hx => h x (List.mem_cons_of_mem a hx)
    simpa [List.foldl_cons, ha] using foldl_max_zero t ht

/-- Claim C5 counterexample: at threshold 0 — inside the claim's full range
[0,100] — the empty text matches (score 0 reaches threshold 0), in both
classifiers, refuting "never produces a match". -/
theorem c5_empty_input_counterexample :
    fuzzyMatchDemographicNew fuzzRatioFn 0 "" ["gender"] = true ∧
    fuzzyMatchDemographicOld fuzzRatioFn 0 "" ["gender"] = true := by
  constructor
  · decide
  · decide

/-- Claim C5 as amended: under the `ratio` algorithm, an empty text never
matches once the threshold is at least 1 (for the legacy classifier the
keywords must additionally be nonempty, since its substring check accepts
an empty keyword); a whitespace-only text is not rejected in general — it
can match a keyword containing whitespace at a low threshold, as the last
conjunct shows at threshold 18. -/
theorem c5_empty_input_amended :
    (∀ (kws : List String) (th : Nat), 1 ≤ th →
      fuzzyMatchDemographicNew fuzzRatioFn th "" kws = false) ∧
    (∀ (kws : List String) (th : Nat), 1 ≤ th → (∀ k ∈ kws, (lowerStr k).data ≠ []) →
      fuzzyMatchDemographicOld fuzzRatioFn th "" kws = false) ∧
    fuzzyMatchDemographicNew fuzzRatioFn 18 " " ["home phone"] = true := by
  refine ⟨?_, ?_, by decide⟩
  · intro kws th hth
    simp only [fuzzyMatchDemographicNew]
    rw [List.any_eq_false]
    intro k hk
    have h0 : fuzzRatioFn (lowerStr "") (lowerStr k) = 0 := fuzzRatioFn_nil (lowerStr k)
    simp [h0]
    omega
  · intro kws th hth hne
    cases kws with
    | nil => rfl
    | cons a l =>
      simp only [fuzzyMatchDemographicOld]
      rw [Bool.or_eq_false_iff]
      constructor
      · rw [List.any_eq_false]
        intro k hk
        have h0 : fuzzRatioFn (lowerStr "") (lowerStr k) = 0 := fuzzRatioFn_nil (lowerStr k)
        have hsub : containsSubCheck (lowerStr k).data (lowerStr "").data = false := by
          show (lowerStr k).data.isEmpty = false
          cases hd : (lowerStr k).data with
          | nil => exact absurd hd (hne k hk)
          | cons c cs => rfl
        simp [h0, hsub]
        omega
      · have hfold : ((a :: l).map
            (fun k => fuzzRatioFn (fullProcess (lowerStr "")) (fullProcess k))).foldl
              Nat.max 0 = 0 := by
          apply foldl_max_zero
          intro x hx
          obtain ⟨k, _, hxk⟩ := List.mem_map.mp hx
          rw [← hxk]
          exact fuzzRatioFn_nil (fullProcess k)
        simp only [hfold]
        simp
        omega

/-- Claim C5 witness: at the default threshold 80 the empty text matches in
neither classifier. -/
theorem c5_empty_input_witness :
    fuzzyMatchDemographicNew fuzzRatioFn 80 "" ["gender"] = false ∧
    fuzzyMatchDemographicOld fuzzRatioFn 80 "" ["gender"] = false :=
  ⟨c5_empty_input_amended.1 ["gender"] 80 (by decide),
   c5_empty_input_amended.2.1 ["gender"] 80 (by decide) (by decide)⟩

/-- Claim C8 counterexample: on a table whose `attr_description` column is
entirely null but whose `attr_name` column holds `gender`, the current
extractor returns the whole table, not an empty one. -/
theorem c8_null_description_counterexample :
    (∀ r ∈ c8Df.rows, getCellStr c8Df.cols r "attr_description" = "nan") ∧
    extractDemographicData fuzzRatioFn 80 [] c8Df = c8Df ∧
    c8Df.rows.length = 1 := by
  refine ⟨by decide, by decide, rfl⟩

/-- Claim C8 as amended: when the `attr_description` column is entirely
null, the current extractor does not stop with an empty table — it falls
back to scanning every column's cell contents, returning the empty table
only when that scan matches no row, and keeping every row whose scan
matches.  (The legacy extractor returned empty without this retry.) -/
theorem c8_null_description_amended (score : String → String → Nat) (th : Nat)
    (userKws : List String) (df : DFrame)
    (hdesc : "attr_description" ∈ df.cols)
    (hnull : ∀ r ∈ df.rows, getCellStr df.cols r "attr_description" = "nan") :
    ((∀ r ∈ df.rows,
        rowContentMatches score th (demographicDataTypesNew ++ userKws) df.cols r = false) →
      extractDemographicData score th userKws df = DFrame.mk [] []) ∧
    (∀ r ∈ df.rows,
        rowContentMatches score th (demographicDataTypesNew ++ userKws) df.cols r = true →
        r ∈ (extractDemographicData score th userKws df).rows) := by
  have hcp : cellPasses "nan" = false := by decide
  have hdm : ∀ r ∈ df.rows,
      descRowMatches score th (demographicDataTypesNew ++ userKws) df.cols r = false := by
    intro r hr
    simp [descRowMatches, hnull r hr, hcp]
  have hfilter : df.rows.filter
      (descRowMatches score th (demographicDataTypesNew ++ userKws) df.cols) = [] :=
    List.filter_eq_nil_iff.mpr (fun r hr => by simp [hdm r hr])
  constructor
  · intro hcontent
    have hcf : df.rows.filter
        (rowContentMatches score th (demographicDataTypesNew ++ userKws) df.cols) = [] :=
      List.filter_eq_nil_iff.mpr (fun r hr => by simp [hcontent r hr])
    simp [extractDemographicData, contentScan, hdesc, hfilter, hcf]
  · intro r hr hc
    have hmem : r ∈ df.rows.filter
        (rowContentMatches score th (demographicDataTypesNew ++ userKws) df.cols) :=
      List.mem_filter.mpr ⟨hr, hc⟩
    have hne : (df.rows.filter
        (rowContentMatches score th (demographicDataTypesNew ++ userKws) df.cols)).isEmpty
        = false := by
      apply Bool.eq_false_iff.mpr
      intro h
      rw [List.isEmpty_iff] at h
      rw [h] at hmem
      simp at hmem
    simpa [extractDemographicData, contentScan, hdesc, hfilter, hne] using hmem

/-- Claim C8 witness: the row with null description and `gender` content is
kept by the fallback scan. -/
theorem c8_null_description_witness :
    [none, some "gender"] ∈ (extractDemographicData fuzzRatioFn 80 [] c8Df).rows :=
  (c8_null_description_amended fuzzRatioFn 80 [] c8Df (by decide) (by decide)).2
    [none, some "gender"] (by decide) (by decide)

/-- Claim C9 — Errors as values: `process_files` is total over its two
result shapes; an empty extraction yields exactly the failure value
`No demographic data found in columns file`, and a nonempty extraction
yields a success value carrying data and statistics, for every input pair
and configuration. -/
theorem c9_errors_as_values (score : String → String → Nat) (th : Nat) (userKws : List String)
    (tableDf : Option DFrame) (columnsDf : DFrame) :
    (dfEmpty (extractDemographicData score th userKws columnsDf) = true →
      processFiles score th userKws tableDf columnsDf =
        ProcessResult.failure "No demographic data found in columns file") ∧
    (dfEmpty (extractDemographicData score th userKws columnsDf) = false →
      ∃ d s, processFiles score th userKws tableDf columnsDf = ProcessResult.success d s) := by
  constructor
  · intro h
    simp [processFiles, h]
  · intro h
    cases hp : processFiles score th userKws tableDf columnsDf with
    | success d s => exact ⟨d, s, rfl⟩
    | failure e => simp [processFiles, h] at hp

/-- Claim C9 witness: a columns table with no rows fails with the exact
error message; one with a matching description row succeeds. -/
theorem c9_errors_as_values_witness :
    processFiles fuzzRatioFn 80 ["gender"] none (DFrame.mk ["attr_description"] []) =
      ProcessResult.failure "No demographic data found in columns file" ∧
    ∃ d s,
      processFiles fuzzRatioFn 80 ["gender"] none
        (DFrame.mk ["attr_description"] [[some "gender"]]) = ProcessResult.success d s :=
  ⟨(c9_errors_as_values fuzzRatioFn 80 ["gender"] none
      (DFrame.mk ["attr_description"] [])).1 (by decide),
   (c9_errors_as_values fuzzRatioFn 80 ["gender"] none
      (DFrame.mk ["attr_description"] [[some "gender"]])).2 (by decide)⟩

/-- Claim C1 counterexample: in the current classifier
(`data_processor.py`, the one the application instantiates) the keyword
`gender` is a literal substring of the lowered text `Customer Gender`, the
keyword list contains `gender` and `phone`, yet under algorithm `ratio` and
threshold 80 no match is reported — there is no substring shortcut in the
current code. -/
theorem c1_substring_shortcut_fails_current :
    containsSubCheck (lowerStr "gender").data (lowerStr "Customer Gender").data = true ∧
    fuzzyMatchDemographicNew fuzzRatioFn 80 "Customer Gender" ["gender", "phone"] = false := by
  constructor
  · decide
  · decide

set_option maxHeartbeats 2000000 in
set_option maxRecDepth 100000 in
/-- Claim C1 as amended: the substring shortcut belongs to the legacy
classifier of `data_processor_old.py` — there, any keyword whose lowering
is a literal substring of the lowered text produces a match for every
scoring function (hence every fuzzy algorithm) and every threshold, and
under Scenario A's keywords it classifies `Customer Gender` and
`Home Phone Number` but not `Widget Color`.  The current classifier of
`data_processor.py` has no shortcut, and the current pipeline on Scenario A
extracts only `Home Phone Number`, giving `extraction_percentage = 33.33`,
not the claimed 66.67. -/
theorem c1_substring_shortcut_amended :
    (∀ (score : String → String → Nat) (th : Nat) (text : String) (kws : List String),
      (∃ k ∈ kws, containsSubCheck (lowerStr k).data (lowerStr text).data = true) →
      fuzzyMatchDemographicOld score th text kws = true) ∧
    fuzzyMatchDemographicOld fuzzRatioFn 80 "Customer Gender" ["gender", "phone"] = true ∧
    fuzzyMatchDemographicOld fuzzRatioFn 80 "Home Phone Number" ["gender", "phone"] = true ∧
    fuzzyMatchDemographicOld fuzzRatioFn 80 "Widget Color" ["gender", "phone"] = false ∧
    resultExtractionPct (processFiles fuzzRatioFn 80 ["gender", "phone"] none scenarioDf) =
      some 3333 ∧
    resultDataRows (processFiles fuzzRatioFn 80 ["gender", "phone"] none scenarioDf) =
      some [[some "Home Phone Number", some "N/A", some "True"]] := by
  refine ⟨?_, by decide, by decide, by decide, by decide, by decide⟩
  intro score th text kws h
  obtain ⟨k, hk, hsub⟩ := h
  simp only [fuzzyMatchDemographicOld]
  rw [Bool.or_eq_true]
  left
  rw [List.any_eq_true]
  exact ⟨k, hk, by rw [hsub]; simp⟩

/-- Claim C1 witness: the shortcut part of the amended claim applied at a
zero scoring function and threshold 1 with the substring hypothesis
discharged concretely. -/
theorem c1_substring_shortcut_witness :
    fuzzyMatchDemographicOld (fun _ _ => 0) 1 "Customer Gender" ["gender"] = true :=
  c1_substring_shortcut_amended.1 (fun _ _ => 0) 1 "Customer Gender" ["gender"]
    ⟨"gender", by decide, by decide⟩
